import Mathlib

/-
Verification of the content-forge generator (src/backend/blaze_content_forge.py)
and its HTTP boundary handlers (src/backend/app.py, src/server.py).

Shallow embedding conventions:
- Python dicts keyed by strings are association lists (`alookup`, `dictSet`).
- `random.choice` / `random.sample` / `random.randint` are parameterised by
  explicit index arguments; `random.sample` keeps its failure condition
  (it raises when the sample size exceeds the population size).
- Python `str.format` is modelled over pre-tokenised templates: a template is
  a list of literal and placeholder segments (`Seg`), matching the source
  template strings character for character; formatting fails (KeyError) when a
  placeholder name is missing from the substitution dictionary.
- Machine strings are Lean `String` (a list of unicode code points, matching
  Python string semantics for length and membership); `str.lower`, `str.upper`
  and `str.title` are modelled on ASCII letters.
-/

/-- Association-list lookup: Python `dict[key]` / `dict.get(key)`. -/
def alookup {α : Type} : List (String × α) → String → Option α
  | [], _ => none
  | (k, v) :: rest, key => if k = key then some v else alookup rest key

/-- Association-list lookup with a default: Python `dict.get(key, default)`. -/
def alookupD {α : Type} (l : List (String × α)) (key : String) (d : α) : α :=
  (alookup l key).getD d

/-- Association-list update: Python `dict[key] = value` (replace or append). -/
def dictSet {α : Type} : List (String × α) → String → α → List (String × α)
  | [], k, v => [(k, v)]
  | (k0, v0) :: rest, k, v =>
    if k0 = k then (k, v) :: rest else (k0, v0) :: dictSet rest k v

theorem alookup_mem {α : Type} {l : List (String × α)} {k : String} {v : α}
    (h : alookup l k = some v) : (k, v) ∈ l := by
  induction l with
  | nil => simp [alookup] at h
  | cons p rest ih =>
    obtain ⟨k0, v0⟩ := p
    by_cases hk : k0 = k
    · subst hk
      simp [alookup] at h
      simp [h]
    · simp [alookup, hk] at h
      exact List.mem_cons_of_mem _ (ih h)

theorem alookupD_eq_of_lookup {α : Type} {l : List (String × α)} {k : String}
    {v : α} (d : α) (h : alookup l k = some v) : alookupD l k d = v := by
  simp [alookupD, h]

theorem alookupD_mem_or_default {α : Type} (l : List (String × α)) (k : String)
    (d : α) : alookupD l k d ∈ l.map Prod.snd ∨ alookupD l k d = d := by
  rcases h : alookup l k with _ | v
  · right; simp [alookupD, h]
  · left
    have := alookup_mem h
    simp only [alookupD, h, Option.getD_some]
    exact List.mem_map_of_mem Prod.snd this

/-- Characters written by code point to keep brace characters out of string
literals. -/
def lb : Char := Char.ofNat 123

/-- Closing-brace character. -/
def rb : Char := Char.ofNat 125

/-- A string with no unresolved brace characters. -/
def noBraces (s : String) : Prop := lb ∉ s.data ∧ rb ∉ s.data

instance (s : String) : Decidable (noBraces s) := by
  unfold noBraces; infer_instance

/-- Python `s.replace(chr(123), empty).replace(chr(125), empty)`: drop all
brace characters. -/
def stripBraces (s : String) : String :=
  String.mk (s.data.filter (fun c => c ≠ lb ∧ c ≠ rb))

theorem noBraces_stripBraces (s : String) : noBraces (stripBraces s) := by
  constructor <;>
  · intro hmem
    simp only [stripBraces] at hmem
    have := (List.mem_filter.mp hmem).2
    simp_all

theorem data_append (a b : String) : (a ++ b).data = a.data ++ b.data := rfl

theorem noBraces_append {a b : String} (ha : noBraces a) (hb : noBraces b) :
    noBraces (a ++ b) := by
  obtain ⟨ha1, ha2⟩ := ha
  obtain ⟨hb1, hb2⟩ := hb
  constructor <;> · rw [data_append]; simp_all

/-- One segment of a Python format template: literal text or a named
placeholder (the source `\x7bname\x7d`). -/
inductive Seg : Type
  | lit (s : String)
  | var (v : String)
deriving DecidableEq

/-- A pre-tokenised format template. -/
abbrev Tmpl := List Seg

/-- Value of one segment under a substitution dictionary; a placeholder whose
name is absent yields `none` (Python KeyError). -/
def segVal (vars : List (String × String)) : Seg → Option String
  | .lit s => some s
  | .var v => alookup vars v

/-- Sequence a list of optional results, failing when any element fails. -/
def omapM {α β : Type} (f : α → Option β) : List α → Option (List β)
  | [] => some []
  | a :: l =>
    match f a, omapM f l with
    | some b, some bs => some (b :: bs)
    | _, _ => none

/-- Python `template.format(**vars)`: substitute every placeholder, or fail
with KeyError (`none`) when any placeholder name is missing. -/
def pyFormatTmpl (t : Tmpl) (vars : List (String × String)) : Option String :=
  (omapM (segVal vars) t).map (fun parts => parts.foldl (· ++ ·) "")

/-- The raw template text (placeholders printed back with braces), as the
source stores it. -/
def rawOfTmpl (t : Tmpl) : String :=
  (t.map (fun s => match s with
    | .lit l => l
    | .var v => lb.toString ++ v ++ rb.toString)).foldl (· ++ ·) ""

theorem noBraces_foldl_append {l : List String} (h : ∀ s ∈ l, noBraces s)
    {acc : String} (hacc : noBraces acc) : noBraces (l.foldl (· ++ ·) acc) := by
  induction l generalizing acc with
  | nil => simpa using hacc
  | cons x xs ih =>
    simp only [List.foldl_cons]
    exact ih (fun s hs => h s (List.mem_cons_of_mem _ hs))
      (noBraces_append hacc (h x (List.mem_cons_self x xs)))

theorem noBraces_empty : noBraces "" := by constructor <;> simp [String.data]

theorem omapM_mem {α β : Type} (f : α → Option β) :
    ∀ (l : List α) (out : List β), omapM f l = some out →
      ∀ b ∈ out, ∃ a ∈ l, f a = some b := by
  intro l
  induction l with
  | nil =>
    intro out h b hb
    simp only [omapM, Option.some_inj] at h
    subst h
    simp at hb
  | cons a l ih =>
    intro out h b hb
    cases hfa : f a with
    | none => simp [omapM, hfa] at h
    | some b0 =>
      cases hml : omapM f l with
      | none => simp [omapM, hfa, hml] at h
      | some bs =>
        simp only [omapM, hfa, hml, Option.some_inj] at h
        subst h
        rcases List.mem_cons.mp hb with hb | hb
        · exact ⟨a, List.mem_cons_self a l, by rw [hfa, hb]⟩
        · obtain ⟨a0, ha0, hfa0⟩ := ih bs hml b hb
          exact ⟨a0, List.mem_cons_of_mem _ ha0, hfa0⟩

/-- If every literal of a template and every dictionary value is brace-free,
then a successful format of that template is brace-free. -/
theorem pyFormatTmpl_noBraces {t : Tmpl} {vars : List (String × String)}
    {out : String}
    (hlit : ∀ s, Seg.lit s ∈ t → noBraces s)
    (hval : ∀ p ∈ vars, noBraces p.2)
    (h : pyFormatTmpl t vars = some out) : noBraces out := by
  simp only [pyFormatTmpl, Option.map_eq_some'] at h
  obtain ⟨parts, hparts, hout⟩ := h
  subst hout
  refine noBraces_foldl_append ?_ noBraces_empty
  intro s hs
  obtain ⟨seg, hseg, hsv⟩ := omapM_mem (segVal vars) t parts hparts s hs
  cases seg with
  | lit l =>
    simp only [segVal, Option.some_inj] at hsv
    subst hsv
    exact hlit _ hseg
  | var v =>
    simp only [segVal] at hsv
    exact hval _ (alookup_mem hsv)

/-- ASCII model of Python `str.lower` on one character. -/
def pyLowerChar (c : Char) : Char :=
  if 'A' ≤ c ∧ c ≤ 'Z' then Char.ofNat (c.toNat + 32) else c

/-- ASCII model of Python `str.upper` on one character. -/
def pyUpperChar (c : Char) : Char :=
  if 'a' ≤ c ∧ c ≤ 'z' then Char.ofNat (c.toNat - 32) else c

/-- ASCII letter test, used by the `str.title` model. -/
def isAsciiLetter (c : Char) : Bool :=
  ('a' ≤ c && c ≤ 'z') || ('A' ≤ c && c ≤ 'Z')

/-- ASCII model of Python `str.title`: uppercase a letter that does not follow
a letter, lowercase a letter that does. -/
def pyTitleAux : Bool → List Char → List Char
  | _, [] => []
  | prevLetter, c :: cs =>
    let c2 := if isAsciiLetter c then
        (if prevLetter then pyLowerChar c else pyUpperChar c)
      else c
    c2 :: pyTitleAux (isAsciiLetter c) cs

/-- Python `topic.title()`. -/
def pyTitle (s : String) : String := String.mk (pyTitleAux false s.data)

/-- Python `topic.lower()`. -/
def pyLower (s : String) : String := String.mk (s.data.map pyLowerChar)

/-- Python `topic.upper()`. -/
def pyUpper (s : String) : String := String.mk (s.data.map pyUpperChar)

/-- Python `s.replace(pat, rep)` for a non-empty pattern, over code points. -/
def replaceSub (pat rep : List Char) : List Char → List Char
  | [] => []
  | c :: cs =>
    if h : pat ≠ [] ∧ (c :: cs).take pat.length = pat then
      rep ++ replaceSub pat rep ((c :: cs).drop pat.length)
    else
      c :: replaceSub pat rep cs
termination_by l => l.length
decreasing_by
  · simp only [List.length_drop, List.length_cons]
    have hpat : 1 ≤ pat.length := by
      rcases pat with _ | ⟨p, ps⟩
      · exact absurd rfl h.1
      · simp
    omega
  · simp

/-- Python `s.replace(pat, rep)` on strings. -/
def pyReplace (s pat rep : String) : String :=
  String.mk (replaceSub pat.data rep.data s.data)

/-- Remove one element of a list at position `j`, as `random.sample` does when
it draws that element. -/
def drawAt {α : Type} (l : List α) (j : Nat) : List α :=
  l.take j ++ l.drop (j + 1)

theorem drawAt_length {α : Type} {l : List α} {j : Nat} (h : j < l.length) :
    (drawAt l j).length = l.length - 1 := by
  simp only [drawAt, List.length_append, List.length_take, List.length_drop]
  omega

theorem drawAt_subset {α : Type} {l : List α} {j : Nat} {a : α}
    (h : a ∈ drawAt l j) : a ∈ l := by
  rcases List.mem_append.mp h with h1 | h1
  · exact List.mem_of_mem_take h1
  · exact List.mem_of_mem_drop h1

/-- Draw `k` distinct positions guided by the index stream `idx`; the model of
the selection performed by Python `random.sample(pop, k)` once `k ≤ len(pop)`
holds. -/
def pySampleAux {α : Type} : List α → Nat → List Nat → List α
  | _, 0, _ => []
  | [], _ + 1, _ => []
  | p :: ps, k + 1, idx =>
    let j : Fin (p :: ps).length :=
      ⟨idx.headD 0 % (p :: ps).length, Nat.mod_lt _ (Nat.succ_pos ps.length)⟩
    (p :: ps).get j :: pySampleAux (drawAt (p :: ps) j.1) k idx.tail

/-- Python `random.sample(pop, k)`: raises ValueError when the requested
sample is larger than the population, otherwise draws `k` distinct elements. -/
def pySample {α : Type} (pop : List α) (k : Nat) (idx : List Nat) :
    Except String (List α) :=
  if k ≤ pop.length then .ok (pySampleAux pop k idx)
  else .error "Sample larger than population or is negative"

theorem pySampleAux_length {α : Type} :
    ∀ (k : Nat) (pop : List α) (idx : List Nat), k ≤ pop.length →
      (pySampleAux pop k idx).length = k := by
  intro k
  induction k with
  | zero => intro pop idx _; simp [pySampleAux]
  | succ n ih =>
    intro pop idx h
    rcases pop with _ | ⟨p, ps⟩
    · simp at h
    · simp only [pySampleAux, List.length_cons]
      have hj : idx.headD 0 % (ps.length + 1) < (p :: ps).length := by
        simp only [List.length_cons]
        exact Nat.mod_lt _ (Nat.succ_pos ps.length)
      have hd := drawAt_length hj
      simp only [List.length_cons] at hd h
      rw [ih _ idx.tail (by omega)]

theorem pySampleAux_subset {α : Type} :
    ∀ (k : Nat) (pop : List α) (idx : List Nat) (a : α),
      a ∈ pySampleAux pop k idx → a ∈ pop := by
  intro k
  induction k with
  | zero => intro pop idx a h; simp [pySampleAux] at h
  | succ n ih =>
    intro pop idx a h
    rcases pop with _ | ⟨p, ps⟩
    · simp [pySampleAux] at h
    · simp only [pySampleAux, List.mem_cons] at h
      rcases h with h | h
      · rw [h]
        exact List.get_mem _ _ _
      · exact drawAt_subset (ih _ idx.tail a h)

theorem pySample_ok {α : Type} {pop : List α} {k : Nat} {idx : List Nat}
    (h : k ≤ pop.length) :
    pySample pop k idx = .ok (pySampleAux pop k idx) := by
  simp [pySample, h]

/-- Python `list(set(xs))`, modelled as first-occurrence deduplication (the
source relies only on the element set, never on the order). -/
def pyDedup {α : Type} [DecidableEq α] (l : List α) : List α :=
  l.foldl (fun acc x => if x ∈ acc then acc else acc ++ [x]) []

theorem pyDedup_sub_aux {α : Type} [DecidableEq α] :
    ∀ (l acc : List α) (a : α),
      a ∈ l.foldl (fun acc x => if x ∈ acc then acc else acc ++ [x]) acc →
        a ∈ acc ∨ a ∈ l := by
  intro l
  induction l with
  | nil => intro acc a h; simp_all
  | cons x xs ih =>
    intro acc a h
    simp only [List.foldl_cons] at h
    rcases ih _ a h with h1 | h1
    · by_cases hx : x ∈ acc
      · simp [hx] at h1
        exact Or.inl h1
      · simp [hx] at h1
        rcases h1 with h1 | h1
        · exact Or.inl h1
        · subst h1; simp
    · simp [h1]

theorem pyDedup_subset {α : Type} [DecidableEq α] {l : List α} {a : α}
    (h : a ∈ pyDedup l) : a ∈ l := by
  rcases pyDedup_sub_aux l [] a h with h1 | h1
  · simp at h1
  · exact h1

theorem pyDedup_len_aux {α : Type} [DecidableEq α] :
    ∀ (l acc : List α),
      (l.foldl (fun acc x => if x ∈ acc then acc else acc ++ [x]) acc).length ≤
        acc.length + l.length := by
  intro l
  induction l with
  | nil => intro acc; simp
  | cons x xs ih =>
    intro acc
    simp only [List.foldl_cons]
    by_cases hx : x ∈ acc
    · simp only [if_pos hx]
      have := ih acc
      simp only [List.length_cons]
      omega
    · simp only [if_neg hx]
      have h2 := ih (acc ++ [x])
      simp only [List.length_append, List.length_cons, List.length_nil]
        at h2 ⊢
      omega

theorem pyDedup_length_le {α : Type} [DecidableEq α] (l : List α) :
    (pyDedup l).length ≤ l.length := by
  have := pyDedup_len_aux l ([] : List α)
  simpa [pyDedup] using this

/-- Hook templates by industry (ContentForge.HOOKS), pre-tokenised. -/
def HOOKS : List (String × List Tmpl) :=
  [("ecommerce",
    [[.lit "Stop scrolling if you want to ", .var "benefit", .lit " 🔥"],
     [.lit "The ", .var "product", .lit " that changed everything for me..."],
     [.lit "POV: You finally found ", .var "solution"],
     [.lit "3 ", .var "things", .lit " I wish I knew before ", .var "action"],
     [.lit "Unpopular opinion: ", .var "opinion", .lit " 👇"],
     [.lit "Save this if you\x27re struggling with ", .var "problem"],
     [.lit "This ", .var "product", .lit " went viral for a reason..."],
     [.lit "The truth about ", .var "topic", .lit " nobody talks about"],
     [.lit "Wait for the transformation... 😱"],
     [.lit "Which one are you choosing? ", .var "options"]]),
   ("saas",
    [[.lit "The ", .var "tool", .lit " that saved me ", .var "time",
      .lit " every week"],
     [.lit "Stop doing ", .var "task", .lit " manually (do this instead)"],
     [.lit "If you\x27re not using ", .var "tool",
      .lit ", you\x27re working too hard"],
     [.lit "This automation changed my business forever"],
     [.lit "The $0 → $", .var "amount", .lit " journey (thread) 🧵"],
     [.lit "Bookmark this for your next ", .var "project"],
     [.lit "Free tools that work better than paid ones:"],
     [.lit "The workflow that 10x\x27d my productivity"]]),
   ("fitness",
    [[.lit "The only ", .var "exercise", .lit " you need for ", .var "goal"],
     [.lit "3 months ago vs now 💪"],
     [.lit "Stop making these ", .var "number", .lit " mistakes..."],
     [.lit "Your ", .var "body_part", .lit " will thank you for this"],
     [.lit "The ", .var "number", .lit " minute workout that actually works"],
     [.lit "Transformation Tuesday hits different when..."],
     [.lit "This changed my relationship with ", .var "topic"]]),
   ("food",
    [[.lit "The ", .var "number", .lit " ingredient ", .var "dish",
      .lit " everyone needs"],
     [.lit "POV: You finally mastered ", .var "recipe"],
     [.lit "Stop ordering takeout and make this instead 👨‍🍳"],
     [.lit "This ", .var "dish", .lit " recipe broke the internet..."],
     [.lit "Meal prep Sunday just got easier"],
     [.lit "The secret ingredient you never knew you needed"],
     [.lit "Restaurant-quality ", .var "dish", .lit " at home 🏠"]]),
   ("fashion",
    [[.lit "The ", .var "item", .lit " that goes with EVERYTHING"],
     [.lit "How to style ", .var "item", .lit " ", .var "number",
      .lit " ways"],
     [.lit "This outfit cost less than your coffee ☕"],
     [.lit "The trend I\x27m taking into ", .var "season"],
     [.lit "Capsule wardrobe essentials you actually need"],
     [.lit "From desk to dinner in one outfit ✨"],
     [.lit "The color combination nobody saw coming"]]),
   ("general",
    [[.lit "The ", .var "number", .lit " things I learned from ",
      .var "experience"],
     [.lit "Unpopular opinion that might help you: 👇"],
     [.lit "If you\x27re reading this, it\x27s a sign to ", .var "action"],
     [.lit "The ", .var "topic", .lit " guide I wish I had sooner"],
     [.lit "Stop scrolling and ", .var "action", .lit " 🔥"],
     [.lit "This mindset shift changed everything"],
     [.lit "Bookmark this for when you need it 📌"]])]

/-- A carousel template record: ordered structural slot names and title
templates (the `structure` and `titles` keys of the source dicts). -/
structure CarouselTemplate : Type where
  structure_ : List String
  titles : List Tmpl
deriving DecidableEq

/-- Carousel slide templates (ContentForge.CAROUSEL_TEMPLATES). -/
def CAROUSEL_TEMPLATES : List (String × CarouselTemplate) :=
  [("tips",
    { structure_ := ["hook", "intro", "tip_1", "tip_2", "tip_3", "bonus",
        "cta"],
      titles :=
        [[.var "number", .lit " ", .var "topic",
          .lit " Tips That Actually Work"],
         [.lit "Save These ", .var "topic", .lit " Hacks 📌"],
         [.lit "The ", .var "topic", .lit " Guide You Need"]] }),
   ("mistakes",
    { structure_ := ["hook", "intro", "mistake_1", "mistake_2", "mistake_3",
        "solution", "cta"],
      titles :=
        [[.lit "Stop Making These ", .var "topic", .lit " Mistakes 🚫"],
         [.var "number", .lit " Things Ruining Your ", .var "topic"],
         [.lit "Mistakes Costing You ", .var "cost"]] }),
   ("steps",
    { structure_ := ["hook", "intro", "step_1", "step_2", "step_3", "step_4",
        "result", "cta"],
      titles :=
        [[.lit "How to ", .var "goal", .lit " in ", .var "number",
          .lit " Steps"],
         [.lit "The ", .var "topic", .lit " Blueprint 🗺️"],
         [.lit "From ", .var "start", .lit " to ", .var "end",
          .lit " (Step-by-Step)"]] }),
   ("mistakes_to_success",
    { structure_ := ["hook", "pain_point", "mistake_1", "mistake_2",
        "solution", "results", "cta"],
      titles :=
        [[.lit "How I Fixed My ", .var "problem"],
         [.lit "I Was ", .var "action", .lit " Wrong for Years 😅"],
         [.lit "The ", .var "topic", .lit " Glow-Up Strategy"]] })]

/-- CTA templates (ContentForge.CTAS); these are plain strings that the
source fills by substring replacement, so placeholders stay literal here
(brace characters written with code-point escapes). -/
def CTAS : List String :=
  ["Save this for later 📌",
   "Drop a 🔥 if you agree",
   "Which one will you try first? 👇",
   "Share this with someone who needs to see it",
   "Comment \x27\x7bkeyword\x7d\x27 for the full guide",
   "Link in bio for more 👆",
   "Follow for daily \x7btopic\x7d tips",
   "Tag someone who\x27s struggling with \x7bproblem\x7d",
   "Double tap if this helped you ❤️",
   "What\x27s your biggest \x7btopic\x7d challenge? Tell me below 👇"]

/-- Hashtag banks by category (ContentForge.HASHTAGS). -/
def HASHTAGS : List (String × List String) :=
  [("ecommerce",
    ["#ecommerce", "#shopify", "#onlineshop", "#smallbusiness",
     "#entrepreneur", "#digitalmarketing", "#onlinestore", "#dropshipping",
     "#ecommercebusiness", "#marketing"]),
   ("saas",
    ["#saas", "#startup", "#tech", "#software", "#b2b", "#growthhacking",
     "#productivity", "#automation", "#businesstools", "#entrepreneurship"]),
   ("fitness",
    ["#fitness", "#workout", "#health", "#gym", "#wellness",
     "#fitnessmotivation", "#healthylifestyle", "#training",
     "#fitnessjourney", "#strong"]),
   ("food",
    ["#foodie", "#foodblogger", "#recipe", "#homemade", "#cooking",
     "#foodphotography", "#instafood", "#healthyfood", "#foodstagram",
     "#yummy"]),
   ("fashion",
    ["#fashion", "#style", "#ootd", "#outfit", "#fashionblogger",
     "#streetstyle", "#instafashion", "#fashionista", "#styleinspo",
     "#lookbook"]),
   ("marketing",
    ["#marketing", "#digitalmarketing", "#socialmedia", "#branding",
     "#contentmarketing", "#marketingtips", "#growth",
     "#socialmediamarketing", "#marketingstrategy", "#seo"]),
   ("general",
    ["#instagood", "#photooftheday", "#love", "#instadaily", "#follow",
     "#like", "#picoftheday", "#beautiful", "#happy", "#life"])]

/-- Brand configuration (dataclass BrandProfile). -/
structure BrandProfile : Type where
  name : String
  industry : String
  voice : String
  target_audience : String
  color_scheme : List String
  content_pillars : List String
  posting_frequency : Int
deriving DecidableEq

/-- One carousel slide record. The source stores slides as dicts with
varying key sets; absent keys are `none` here. -/
structure Slide : Type where
  type_ : String
  number : Option Nat := none
  title : Option String := none
  text : Option String := none
  style : Option String := none
deriving DecidableEq

/-- A single piece of content (dataclass ContentPiece). -/
structure ContentPiece : Type where
  content_type : String
  title : String
  slides : List Slide
  caption : String
  hashtags : List String
  hook : String
  cta : String
  engagement_score : Int
  best_posting_time : String
  brand_voice : String
deriving DecidableEq

/-- The substitution dictionary of `_generate_hook`. The source dict literal
repeats the key `action` (once as `starting \x7btopic\x7d`, once as
`doing this`); a Python dict literal keeps the last value, so the entry here
is `doing this`. -/
def hookVars (topic : String) : List (String × String) :=
  [("benefit", topic ++ " faster"),
   ("product", topic),
   ("solution", "the perfect " ++ topic ++ " strategy"),
   ("things", "secrets"),
   ("action", "doing this"),
   ("opinion", topic ++ " is overrated"),
   ("problem", topic ++ " struggles"),
   ("topic", topic),
   ("time", "10+ hours"),
   ("amount", "10K"),
   ("project", topic),
   ("exercise", topic),
   ("goal", "better " ++ topic),
   ("number", "5"),
   ("body_part", "body"),
   ("dish", topic),
   ("recipe", topic),
   ("item", topic),
   ("season", "next year"),
   ("experience", topic),
   ("start", "zero"),
   ("end", "hero"),
   ("cost", "money"),
   ("options", "1, 2, or 3?")]

/-- ContentForge._generate_hook: pick a hook template of the industry (or the
general fallback), format it, and on a missing placeholder (KeyError) strip
the brace characters from the raw template instead. `choice` stands for the
`random.choice` draw. -/
def generate_hook (industry topic : String) (choice : Nat) : String :=
  let industry_hooks := alookupD HOOKS industry (alookupD HOOKS "general" [])
  let hook_template := industry_hooks.getD (choice % industry_hooks.length) []
  match pyFormatTmpl hook_template (hookVars topic) with
  | some s => s
  | none => stripBraces (rawOfTmpl hook_template)

/-- The substitution dictionary of `_fill_template`; `numIdx` stands for the
`random.choice` over the four number strings. -/
def fillVars (topic : String) (numIdx : Nat) : List (String × String) :=
  [("number", ["3", "5", "7", "10"].getD (numIdx % 4) ""),
   ("topic", pyTitle topic),
   ("goal", "Master " ++ topic),
   ("start", "Beginner"),
   ("end", "Pro"),
   ("problem", topic ++ " issues"),
   ("action", topic),
   ("cost", "thousands")]

/-- ContentForge._fill_template: format a title template, stripping braces on
a missing placeholder. -/
def fill_template (t : Tmpl) (topic : String) (numIdx : Nat) : String :=
  match pyFormatTmpl t (fillVars topic numIdx) with
  | some s => s
  | none => stripBraces (rawOfTmpl t)

/-- The static slot-name → slide-record table of `_generate_slides`. -/
def slide_content (topic : String) : String → Option Slide
  | "hook" => some
      { type_ := "hook",
        text := some ("The " ++ topic ++ " secrets\neveryone needs 🔥"),
        style := some "bold" }
  | "intro" => some
      { type_ := "text",
        text := some ("Here are the " ++ topic ++
          "\nstrategies that\nactually work 👇"),
        style := some "normal" }
  | "tip_1" => some
      { type_ := "tip", number := some 1,
        title := some "Start with research",
        text := some ("Understand your " ++ topic ++ " before taking action") }
  | "tip_2" => some
      { type_ := "tip", number := some 2,
        title := some "Create systems",
        text := some ("Build repeatable " ++ topic ++ " processes") }
  | "tip_3" => some
      { type_ := "tip", number := some 3,
        title := some "Measure results",
        text := some ("Track what works in " ++ topic) }
  | "tip_4" => some
      { type_ := "tip", number := some 4,
        title := some "Scale winners",
        text := some ("Double down on " ++ topic ++ " successes") }
  | "bonus" => some
      { type_ := "bonus", title := some "💡 Pro Tip",
        text := some ("The best " ++ topic ++ " pros do this daily") }
  | "cta" => some
      { type_ := "cta",
        text := some ("Follow for more\n" ++ topic ++ " tips 🔥"),
        style := some "cta" }
  | "mistake_1" => some
      { type_ := "warning", number := some 1,
        title := some "❌ Random guessing",
        text := some ("Never approach " ++ topic ++ " without a plan") }
  | "mistake_2" => some
      { type_ := "warning", number := some 2,
        title := some "❌ Ignoring data",
        text := some (topic ++ " without metrics is just guessing") }
  | "mistake_3" => some
      { type_ := "warning", number := some 3,
        title := some "❌ Giving up early",
        text := some (topic ++ " takes time - be patient") }
  | "solution" => some
      { type_ := "solution", title := some "✅ The Fix",
        text := some ("Use this proven " ++ topic ++ " framework instead") }
  | "step_1" => some
      { type_ := "step", number := some 1,
        title := some "Research Phase",
        text := some ("Analyze your " ++ topic ++ " situation thoroughly") }
  | "step_2" => some
      { type_ := "step", number := some 2,
        title := some "Strategy Phase",
        text := some ("Create your " ++ topic ++ " action plan") }
  | "step_3" => some
      { type_ := "step", number := some 3,
        title := some "Execution Phase",
        text := some ("Implement your " ++ topic ++ " strategy daily") }
  | "step_4" => some
      { type_ := "step", number := some 4,
        title := some "Optimization",
        text := some ("Refine your " ++ topic ++ " approach weekly") }
  | "result" => some
      { type_ := "result", title := some "🎉 Results",
        text := some ("Consistent " ++ topic ++ " growth within 90 days") }
  | "pain_point" => some
      { type_ := "pain",
        title := some ("Struggling with " ++ topic ++ "?"),
        text := some "You\x27re not alone - here\x27s why..." }
  | "results" => some
      { type_ := "result", title := some "The Results 📈",
        text := some (topic ++ " transformation in just 30 days") }
  | _ => none

/-- ContentForge._generate_slides: truncate the structural slot list to the
first `num_slides` entries, keep the slots present in the static table. The
`voice` argument is accepted and unused, as in the source. -/
def generate_slides (template : CarouselTemplate) (topic : String)
    (num_slides : Nat) (voice : String) : List Slide :=
  let _ := voice
  (template.structure_.take num_slides).filterMap (slide_content topic)

/-- ContentForge._generate_caption: one random intro, one random value
proposition, nine fixed lines joined by newlines. -/
def generate_caption (brand : BrandProfile) (topic hook : String)
    (introIdx valueIdx : Nat) : String :=
  let intros :=
    ["Let\x27s talk about " ++ topic ++ "... 👇",
     "Here\x27s what nobody tells you about " ++ topic ++ ":",
     "The " ++ topic ++ " game just changed 🔥",
     "Real talk about " ++ topic ++ ":"]
  let value_props :=
    ["These " ++ topic ++ " strategies have worked for 100+ " ++
       brand.target_audience ++ ".",
     "I spent years figuring out " ++ topic ++ " so you don\x27t have to.",
     "This is the exact " ++ topic ++ " system we use.",
     "Stop overcomplicating " ++ topic ++ ". Start here 👇"]
  let intro := intros.getD (introIdx % intros.length) ""
  let value := value_props.getD (valueIdx % value_props.length) ""
  let caption_parts :=
    [hook, "", intro, "", value, "",
     "Save this post and come back to it when you need it 📌", "",
     "Follow @" ++ brand.name ++ " for daily " ++ topic ++ " tips!"]
  String.intercalate "\n" caption_parts

/-- Topic-derived hashtag of `_generate_hashtags`:
`#` + topic lower-cased with spaces removed + a fixed suffix. -/
def topicTag (topic suffix : String) : String :=
  String.mk ('#' :: ((pyLower topic).data.filter (fun c => c ≠ ' ') ++
    suffix.data))

/-- ContentForge._generate_hashtags over an explicit catalog (the source
reads `self.HASHTAGS`, which a configuration may replace): look up the
industry bank with the general bank as fallback (Python evaluates
`self.HASHTAGS[general]` first and raises KeyError when it is absent), draw
`min(3, len(bank))` tags from the first five bank entries and two tags from
the first five general entries, add the three topic tags, deduplicate. -/
def generate_hashtags_cat (catalog : List (String × List String))
    (industry topic : String) (idx1 idx2 : List Nat) :
    Except String (List String) :=
  match alookup catalog "general" with
  | none => .error "KeyError: \x27general\x27"
  | some generalBank =>
    let industry_tags := (alookup catalog industry).getD generalBank
    let topic_tags :=
      [topicTag topic "", topicTag topic "tips", topicTag topic "strategy"]
    match pySample (industry_tags.take 5) (min 3 industry_tags.length)
        idx1 with
    | .error e => .error e
    | .ok sel1 =>
      match pySample (generalBank.take 5) 2 idx2 with
      | .error e => .error e
      | .ok sel2 => .ok (pyDedup (sel1 ++ topic_tags ++ sel2))

/-- ContentForge._generate_hashtags on the class catalog. -/
def generate_hashtags (industry topic : String) (idx1 idx2 : List Nat) :
    Except String (List String) :=
  generate_hashtags_cat HASHTAGS industry topic idx1 idx2

/-- ContentForge._select_cta: pick a CTA and substitute by substring
replacement (`ctaIdx` stands for the `random.choice` draw). -/
def select_cta (topic : String) (ctaIdx : Nat) : String :=
  let cta := CTAS.getD (ctaIdx % CTAS.length) ""
  pyReplace
    (pyReplace
      (pyReplace cta (String.mk [lb] ++ "topic" ++ String.mk [rb]) topic)
      (String.mk [lb] ++ "keyword" ++ String.mk [rb])
      (pyUpper (String.mk (topic.data.take 5))))
    (String.mk [lb] ++ "problem" ++ String.mk [rb]) (topic ++ " struggles")

/-- ContentForge._calculate_engagement_score: base 50 plus four additive
bonuses, clamped to [0, 100]. -/
def calculate_engagement_score (hook : String) (slides : List Slide)
    (hashtags : List String) : Int :=
  let score : Int := 50
  let score := score +
    (if ['🔥', '💡', '😱', '👇'].any (fun c => hook.data.contains c)
      then 10 else 0)
  let score := score + (if hook.data.length < 60 then 5 else 0)
  let score := score +
    (if 5 ≤ slides.length ∧ slides.length ≤ 10 then 15 else 0)
  let score := score +
    (if 8 ≤ hashtags.length ∧ hashtags.length ≤ 15 then 10 else 0)
  min 100 (max 0 score)

/-- ContentForge._optimal_posting_time: fixed lookup keyed by the target
audience, with a general fallback. -/
def optimal_posting_time (target_audience : String) : String :=
  let times :=
    [("professionals", "Tuesday/Thursday 12:00 PM or 5:00 PM"),
     ("entrepreneurs", "Monday/Wednesday 8:00 AM or 6:00 PM"),
     ("students", "Weekdays 7:00 PM - 9:00 PM"),
     ("parents", "Weekdays 10:00 AM or 8:00 PM"),
     ("general", "Tuesday-Thursday 11:00 AM - 1:00 PM")]
  alookupD times target_audience (alookupD times "general" "")

/-- The five colour palettes of `_generate_colors`. -/
def color_palettes : List (List String) :=
  [["#FF6B6B", "#4ECDC4", "#45B7D1", "#96CEB4", "#FFEAA7"],
   ["#6C5CE7", "#A29BFE", "#74B9FF", "#0984E3", "#00B894"],
   ["#FD79A8", "#FDCB6E", "#6C5CE7", "#00B894", "#E17055"],
   ["#2D3436", "#636E72", "#B2BEC3", "#DFE6E9", "#00B894"],
   ["#E74C3C", "#E67E22", "#F1C40F", "#27AE60", "#2980B9"]]

/-- ContentForge._generate_colors (`palIdx` stands for `random.choice`). -/
def generate_colors (palIdx : Nat) : List String :=
  color_palettes.getD (palIdx % color_palettes.length) []

/-- The mutable state of a ContentForge instance: the brand mapping and the
content history (`__init__` creates both empty; no source method ever
appends to `content_history`). -/
structure ForgeState : Type where
  brands : List (String × BrandProfile)
  content_history : List ContentPiece

/-- The initial state built by `ContentForge.__init__`. -/
def initForge : ForgeState := { brands := [], content_history := [] }

/-- All random draws one `generate_carousel` call consumes. -/
structure CarouselRand : Type where
  hookIdx : Nat
  titleIdx : Nat
  numIdx : Nat
  introIdx : Nat
  valueIdx : Nat
  ctaIdx : Nat
  hashIdx1 : List Nat
  hashIdx2 : List Nat

/-- ContentForge.create_brand: build a profile and store it under its name
(replace-on-create); returns the updated state and the profile. -/
def create_brand (s : ForgeState) (name industry voice : String)
    (target_audience : String) (content_pillars : List String)
    (posting_frequency : Int) (palIdx : Nat) : ForgeState × BrandProfile :=
  let brand : BrandProfile :=
    { name := name, industry := industry, voice := voice,
      target_audience := target_audience,
      color_scheme := generate_colors palIdx,
      content_pillars := content_pillars,
      posting_frequency := posting_frequency }
  ({ s with brands := dictSet s.brands name brand }, brand)

/-- The default carousel template: `CAROUSEL_TEMPLATES.get(t, tips)`. Python
evaluates the `tips` default eagerly; it is present, so the lookup never
raises. -/
def lookupTemplate (template_type : String) : CarouselTemplate :=
  alookupD CAROUSEL_TEMPLATES template_type
    (alookupD CAROUSEL_TEMPLATES "tips" { structure_ := [], titles := [] })

/-- ContentForge.generate_carousel: look up the brand (error when absent),
then assemble hook, slides, caption, hashtags, CTA, score, posting time and
title. The method writes no instance field, so the state component of the
result is the input state. -/
def generate_carousel (s : ForgeState) (brand_name topic : String)
    (template_type : String) (num_slides : Nat) (ρ : CarouselRand) :
    ForgeState × Except String ContentPiece :=
  match alookup s.brands brand_name with
  | none =>
    (s, .error ("Brand \x27" ++ brand_name ++ "\x27 not found. " ++
      "Create it first."))
  | some brand =>
    let template := lookupTemplate template_type
    let hook := generate_hook brand.industry topic ρ.hookIdx
    let slides := generate_slides template topic num_slides brand.voice
    let caption := generate_caption brand topic hook ρ.introIdx ρ.valueIdx
    match generate_hashtags brand.industry topic ρ.hashIdx1 ρ.hashIdx2 with
    | .error e => (s, .error e)
    | .ok hashtags =>
      let cta := select_cta topic ρ.ctaIdx
      let engagement_score := calculate_engagement_score hook slides hashtags
      let best_time := optimal_posting_time brand.target_audience
      let title_template :=
        template.titles.getD (ρ.titleIdx % template.titles.length) []
      let title := fill_template title_template topic ρ.numIdx
      (s, .ok
        { content_type := "carousel", title := title, slides := slides,
          caption := caption, hashtags := hashtags, hook := hook, cta := cta,
          engagement_score := engagement_score,
          best_posting_time := best_time, brand_voice := brand.voice })

/-- ContentForge.generate_single_post: single-image post; `scoreR` stands
for `random.randint(60, 90)`. -/
def generate_single_post (s : ForgeState) (brand_name topic : String)
    (post_type : String) (hookIdx ctaIdx : Nat) (idx1 idx2 : List Nat)
    (scoreR : Nat) : ForgeState × Except String ContentPiece :=
  match alookup s.brands brand_name with
  | none =>
    (s, .error ("Brand \x27" ++ brand_name ++ "\x27 not found"))
  | some brand =>
    let hook := generate_hook brand.industry topic hookIdx
    let captions :=
      [("educational",
        "Quick " ++ topic ++ " tip:\n\n💡 [Insert educational content " ++
          "here]\n\nSave this for later! 📌"),
       ("motivational",
        "Your daily reminder:\n\n🔥 [Insert motivational message about " ++
          topic ++ "]\n\nTag someone who needs to hear this 👇"),
       ("promotional",
        "Introducing [Product/Service]\n\n✨ The " ++ topic ++
          " solution you\x27ve been waiting for\n\nLink in bio to learn " ++
          "more 👆"),
       ("engagement",
        "Question for you:\n\n❓ [Insert engaging question about " ++
          topic ++ "]\n\nDrop your answer below! 👇")]
    let caption :=
      alookupD captions post_type (alookupD captions "educational" "")
    match generate_hashtags brand.industry topic idx1 idx2 with
    | .error e => (s, .error e)
    | .ok hashtags =>
      (s, .ok
        { content_type := "single",
          title := pyTitle topic ++ " " ++ pyTitle post_type,
          slides := [{ type_ := "single", style := some post_type }],
          caption := caption, hashtags := hashtags, hook := hook,
          cta := select_cta topic ctaIdx,
          engagement_score := 60 + (scoreR % 31 : Nat),
          best_posting_time := optimal_posting_time brand.target_audience,
          brand_voice := brand.voice })

/-- Random draws one calendar day consumes: one template-type choice plus a
full carousel draw. -/
structure CalendarRand : Type where
  tmplIdx : Nat
  car : CarouselRand

/-- One day-summary record of `generate_content_calendar`. -/
structure CalRec : Type where
  date : String
  day : String
  content_type : String
  title : String
  topic : String
  engagement_score : Int
  best_time : String
  caption_preview : String
  hashtags : List String

/-- Template-type pool drawn from inside the calendar loop. -/
def calendarTemplatePool : List String := ["tips", "mistakes", "steps"]

/-- Build one calendar day record from the generated carousel, `clock i`
standing for `(start_date + timedelta(days=i)).strftime(...)` for the date
and the weekday name. -/
def mkCalRec (clock : Nat → String × String) (i : Nat) (pillar : String)
    (c : ContentPiece) : CalRec :=
  { date := (clock i).1, day := (clock i).2,
    content_type := c.content_type, title := c.title, topic := pillar,
    engagement_score := c.engagement_score, best_time := c.best_posting_time,
    caption_preview := String.mk (c.caption.data.take 100) ++ "...",
    hashtags := c.hashtags }

/-- The loop body of `generate_content_calendar` over the day indices; a
carousel failure propagates as the loop would re-raise it. -/
def calendarLoop (s : ForgeState) (brand_name : String)
    (brand : BrandProfile) (clock : Nat → String × String)
    (ρ : Nat → CalendarRand) : List Nat → Except String (List CalRec)
  | [] => .ok []
  | i :: rest =>
    let pillar := brand.content_pillars.getD
      (i % brand.content_pillars.length) ""
    let tmpl := calendarTemplatePool.getD
      ((ρ i).tmplIdx % calendarTemplatePool.length) ""
    match (generate_carousel s brand_name pillar tmpl 7 (ρ i).car).2 with
    | .error e => .error e
    | .ok c =>
      match calendarLoop s brand_name brand clock ρ rest with
      | .error e => .error e
      | .ok tail => .ok (mkCalRec clock i pillar c :: tail)

/-- ContentForge.generate_content_calendar: look up the brand, then generate
`min(days, 2 * pillar_count)` day records, cycling pillars modulo the pillar
count. The unused source variable `content_types` is dropped; the method
writes no instance field. -/
def generate_content_calendar (s : ForgeState) (brand_name : String)
    (days : Nat) (clock : Nat → String × String) (ρ : Nat → CalendarRand) :
    ForgeState × Except String (List CalRec) :=
  match alookup s.brands brand_name with
  | none => (s, .error ("Brand \x27" ++ brand_name ++ "\x27 not found"))
  | some brand =>
    (s, calendarLoop s brand_name brand clock ρ
      (List.range (min days (brand.content_pillars.length * 2))))

/-- JSON values as far as the handlers inspect them. -/
inductive JVal : Type
  | str (s : String)
  | int (n : Int)
  | bool (b : Bool)
  | null
deriving DecidableEq

/-- A JSON object body. -/
abbrev Body := List (String × JVal)

/-- Flask `request.get_json()`: an empty or undecodable request body raises
BadRequest, which the handler catch-all converts to the failure shape. -/
def getJson (body? : Option Body) : Except String Body :=
  match body? with
  | none =>
    .error ("400 Bad Request: Failed to decode JSON object: " ++
      "Expecting value: line 1 column 1 (char 0)")
  | some b => .ok b

/-- Digit test for the `int()` model. -/
def isPyDigit (c : Char) : Bool := '0' ≤ c && c ≤ '9'

/-- Whitespace stripped by Python `int(str)`. -/
def isPySpace (c : Char) : Bool :=
  c = ' ' || c = '\t' || c = '\n' || c = '\r'

/-- Value of a digit list. -/
def digitsVal (cs : List Char) : Nat :=
  cs.foldl (fun a c => a * 10 + (c.toNat - 48)) 0

/-- Parse a non-empty all-digit list. -/
def digitsToNat (cs : List Char) : Option Nat :=
  if cs ≠ [] ∧ cs.all isPyDigit then some (digitsVal cs) else none

/-- Python `int(s)` for a string: strip whitespace, optional sign, digits;
anything else is a ValueError (`none`). -/
def parsePyInt (s : String) : Option Int :=
  let cs := ((s.data.dropWhile isPySpace).reverse.dropWhile isPySpace).reverse
  match cs with
  | '-' :: rest => (digitsToNat rest).map (fun n => -(n : Int))
  | '+' :: rest => (digitsToNat rest).map (fun n => (n : Int))
  | _ => (digitsToNat cs).map (fun n => (n : Int))

/-- Python `int(x)` on a JSON-decoded value: ints pass through, booleans
coerce, strings parse or raise ValueError, null raises TypeError. -/
def pyToInt : JVal → Except String Int
  | .int n => .ok n
  | .bool b => .ok (if b then 1 else 0)
  | .null =>
    .error ("int() argument must be a string, a bytes-like object or a " ++
      "real number, not \x27NoneType\x27")
  | .str s =>
    match parsePyInt s with
    | some n => .ok n
    | none =>
      .error ("invalid literal for int() with base 10: \x27" ++ s ++ "\x27")

/-- Attribute names a ContentForge instance exposes: the two instance fields
set by `__init__` plus every class attribute and method defined in
`blaze_content_forge.py`. -/
def contentForgeMethods : List String :=
  ["brands", "content_history", "HOOKS", "CAROUSEL_TEMPLATES", "CTAS",
   "HASHTAGS", "__init__", "create_brand", "_generate_colors",
   "generate_carousel", "_generate_hook", "_fill_template",
   "_generate_slides", "_generate_caption", "_generate_hashtags",
   "_select_cta", "_calculate_engagement_score", "_optimal_posting_time",
   "generate_content_calendar", "generate_single_post", "export_content",
   "analyze_performance"]

/-- Python attribute lookup `getattr(forge, name)`: AttributeError when the
name is absent. -/
def pyGetAttr (attrs : List String) (name : String) : Except String String :=
  if name ∈ attrs then .ok name
  else
    .error ("\x27ContentForge\x27 object has no attribute \x27" ++ name ++
      "\x27")

/-- A boundary response body: the success or the failure JSON shape. -/
inductive Resp (α : Type) : Type
  | success (a : α)
  | failure (e : String)

/-- Body of the POST /generate/carousel handler (identical in
src/backend/app.py and src/server.py): extract the fields with their
defaults, coerce num_slides with `int()`, then call
`forge.generate_carousel_post(...)`. ContentForge defines no attribute of
that name, so the attribute lookup always raises before any generation
runs; the trailing error is unreachable. -/
def carouselHandlerBody (body? : Option Body) : Except String ContentPiece :=
  do
  let data ← getJson body?
  let _topic := alookupD data "topic" (JVal.str "Marketing Tips")
  let _industry := alookupD data "industry" (JVal.str "ecommerce")
  let _brand_voice := alookupD data "brand_voice" (JVal.str "friendly")
  let _num_slides ← pyToInt (alookupD data "num_slides" (JVal.int 7))
  let _template := alookupD data "template" (JVal.str "tips")
  let _method ← pyGetAttr contentForgeMethods "generate_carousel_post"
  .error "unreachable"

/-- POST /generate/carousel: HTTP status with the success or failure shape
(`except Exception` converts any error to `(success:false, error)` 500). -/
def handleCarousel (body? : Option Body) : Nat × Resp ContentPiece :=
  match carouselHandlerBody body? with
  | .ok c => (200, .success c)
  | .error e => (500, .failure e)

/-- Body of the POST /generate/caption handler (identical in both boundary
files): extract topic and industry, then call `forge.generate_caption(...)`.
ContentForge defines no attribute of that name (only the private
`_generate_caption`, with a different signature), so the attribute lookup
always raises; the trailing error is unreachable. -/
def captionHandlerBody (body? : Option Body) :
    Except String (String × List String) := do
  let data ← getJson body?
  let _topic := alookupD data "topic" (JVal.str "")
  let _industry := alookupD data "industry" (JVal.str "ecommerce")
  let _method ← pyGetAttr contentForgeMethods "generate_caption"
  .error "unreachable"

/-- POST /generate/caption: HTTP status with the success or failure shape. -/
def handleCaption (body? : Option Body) :
    Nat × Resp (String × List String) :=
  match captionHandlerBody body? with
  | .ok v => (200, .success v)
  | .error e => (500, .failure e)

/-- One state-bearing ContentForge call, with all its arguments and random
draws. -/
inductive ForgeOp : Type
  | createBrand (name industry voice target_audience : String)
      (pillars : List String) (freq : Int) (palIdx : Nat)
  | genCarousel (brand_name topic template_type : String) (num_slides : Nat)
      (ρ : CarouselRand)
  | genSingle (brand_name topic post_type : String) (hookIdx ctaIdx : Nat)
      (idx1 idx2 : List Nat) (scoreR : Nat)
  | genCalendar (brand_name : String) (days : Nat)
      (clock : Nat → String × String) (ρ : Nat → CalendarRand)

/-- State after one ContentForge call. -/
def applyOp (s : ForgeState) : ForgeOp → ForgeState
  | .createBrand n i v a p f pal => (create_brand s n i v a p f pal).1
  | .genCarousel b t tt n ρ => (generate_carousel s b t tt n ρ).1
  | .genSingle b t pt h c i1 i2 sc =>
    (generate_single_post s b t pt h c i1 i2 sc).1
  | .genCalendar b d cl ρ => (generate_content_calendar s b d cl ρ).1

/-- State after a sequence of ContentForge calls. -/
def runOps (s : ForgeState) (ops : List ForgeOp) : ForgeState :=
  ops.foldl applyOp s

/-- C3: for every hook string, slide list and hashtag list, the
engagement-score function returns exactly the clamp to [0, 100] of 50 plus
the four bonuses (+10 emphasis character in the hook, +5 hook shorter than
60 characters, +15 slide count in [5, 10], +10 hashtag count in [8, 15]),
and the result is an integer in [0, 100] for every input combination,
including empty hook, slide and hashtag inputs. -/
theorem c3_engagement_score_formula (hook : String) (slides : List Slide)
    (hashtags : List String) :
    calculate_engagement_score hook slides hashtags =
      min 100 (max 0 ((50 : Int) +
        (if ['🔥', '💡', '😱', '👇'].any (fun c => hook.data.contains c)
          then 10 else 0) +
        (if hook.data.length < 60 then 5 else 0) +
        (if 5 ≤ slides.length ∧ slides.length ≤ 10 then 15 else 0) +
        (if 8 ≤ hashtags.length ∧ hashtags.length ≤ 15 then 10 else 0))) ∧
    0 ≤ calculate_engagement_score hook slides hashtags ∧
    calculate_engagement_score hook slides hashtags ≤ 100 := by
  refine ⟨rfl, ?_, ?_⟩ <;>
  · unfold calculate_engagement_score
    split_ifs <;> simp

/-- C5: for every template type (resolved with the tips fallback, as the
carousel generator does) and every requested slide count, the slide list is
no longer than the smaller of the requested count and the template's
structure length. -/
theorem c5_slides_length_le (template_type topic : String) (n : Nat)
    (voice : String) :
    (generate_slides (lookupTemplate template_type) topic n voice).length ≤
      min n (lookupTemplate template_type).structure_.length := by
  unfold generate_slides
  calc ((lookupTemplate template_type).structure_.take n |>.filterMap
        (slide_content topic)).length
      ≤ ((lookupTemplate template_type).structure_.take n).length :=
        List.length_filterMap_le _ _
    _ = min n (lookupTemplate template_type).structure_.length :=
        List.length_take _ _

/-- C1: the claim says a well-formed POST /generate/carousel body yields the
success shape; in fact the handler calls `forge.generate_carousel_post`,
a method ContentForge does not define, so even the all-defaults body
produces the failure shape with HTTP 500 (AttributeError caught by the
handler's catch-all). -/
theorem c1_carousel_handler_fails_on_defaults :
    handleCarousel (some []) =
      (500, Resp.failure
        ("\x27ContentForge\x27 object has no attribute " ++
          "\x27generate_carousel_post\x27")) ∧
    ("\x27ContentForge\x27 object has no attribute " ++
      "\x27generate_carousel_post\x27" : String) ≠ "" := by
  exact ⟨rfl, by decide⟩

/-- C2: the claim says POST /generate/caption with an empty body yields
HTTP 200 with a caption and hashtags; in fact an empty body makes
`request.get_json()` raise (converted to the failure shape, HTTP 500), and
even an empty JSON object fails because the handler calls
`forge.generate_caption`, a method ContentForge does not define. -/
theorem c2_caption_handler_fails_on_empty_body :
    handleCaption none =
      (500, Resp.failure
        ("400 Bad Request: Failed to decode JSON object: " ++
          "Expecting value: line 1 column 1 (char 0)")) ∧
    handleCaption (some []) =
      (500, Resp.failure
        ("\x27ContentForge\x27 object has no attribute " ++
          "\x27generate_caption\x27")) := by
  exact ⟨rfl, rfl⟩

/-- C9: a POST /generate/carousel body whose num_slides field is the string
abc makes `int()` raise ValueError, which the handler reports as the failure
shape with HTTP 500 and a non-empty error message. -/
theorem c9_carousel_nonnumeric_num_slides (body : Body)
    (h : alookup body "num_slides" = some (JVal.str "abc")) :
    handleCarousel (some body) =
      (500, Resp.failure "invalid literal for int() with base 10: \x27abc\x27")
      ∧ ("invalid literal for int() with base 10: \x27abc\x27" : String)
      ≠ "" := by
  have hx : alookupD body "num_slides" (JVal.int 7) = JVal.str "abc" := by
    simp [alookupD, h]
  have hbody : carouselHandlerBody (some body) =
      Except.bind (pyToInt (alookupD body "num_slides" (JVal.int 7)))
        (fun _ =>
          Except.bind (pyGetAttr contentForgeMethods "generate_carousel_post")
            (fun _ => Except.error "unreachable")) := rfl
  refine ⟨?_, by decide⟩
  unfold handleCarousel
  rw [hbody, hx]
  rfl

/-- Witness for C9 at the concrete one-field body. -/
theorem c9_witness :
    handleCarousel (some [("num_slides", JVal.str "abc")]) =
      (500, Resp.failure "invalid literal for int() with base 10: \x27abc\x27")
      ∧ ("invalid literal for int() with base 10: \x27abc\x27" : String)
      ≠ "" :=
  c9_carousel_nonnumeric_num_slides [("num_slides", JVal.str "abc")] rfl

theorem min_three_le_take_five {α : Type} (l : List α) :
    min 3 l.length ≤ (l.take 5).length := by
  simp only [List.length_take]
  omega

theorem alookup_some_of_key_mem {α : Type} {l : List (String × α)}
    {key : String} (h : key ∈ l.map Prod.fst) :
    ∃ v, alookup l key = some v := by
  induction l with
  | nil => simp at h
  | cons p rest ih =>
    obtain ⟨k0, v0⟩ := p
    by_cases hk : k0 = key
    · subst hk
      exact ⟨v0, by simp [alookup]⟩
    · simp only [List.map_cons, List.mem_cons] at h
      rcases h with h | h
      · exact absurd h.symm hk
      · obtain ⟨v, hv⟩ := ih h
        exact ⟨v, by simp [alookup, hk, hv]⟩

/-- Whenever the two samples are possible, `_generate_hashtags` succeeds and
every returned tag comes from the industry bank prefix, the three topic tags
or the general bank prefix, with at most `min(3, len(bank)) + 5` tags. -/
theorem generate_hashtags_cat_ok (catalog : List (String × List String))
    (industry topic : String) (idx1 idx2 : List Nat)
    {generalBank : List String}
    (hg : alookup catalog "general" = some generalBank)
    (h2 : 2 ≤ (generalBank.take 5).length) :
    ∃ r, generate_hashtags_cat catalog industry topic idx1 idx2 = .ok r ∧
      r.length ≤
        min 3 ((alookup catalog industry).getD generalBank).length + 5 ∧
      ∀ s ∈ r,
        s ∈ ((alookup catalog industry).getD generalBank).take 5 ∨
        s ∈ [topicTag topic "", topicTag topic "tips",
          topicTag topic "strategy"] ∨
        s ∈ generalBank.take 5 := by
  set bank := (alookup catalog industry).getD generalBank with hbank
  have h1 : min 3 bank.length ≤ (bank.take 5).length :=
    min_three_le_take_five bank
  refine ⟨pyDedup (pySampleAux (bank.take 5) (min 3 bank.length) idx1 ++
    [topicTag topic "", topicTag topic "tips", topicTag topic "strategy"] ++
    pySampleAux (generalBank.take 5) 2 idx2), ?_, ?_, ?_⟩
  · unfold generate_hashtags_cat
    rw [hg]
    dsimp only
    rw [← hbank, pySample_ok h1, pySample_ok h2]
  · have hd := pyDedup_length_le
      (pySampleAux (bank.take 5) (min 3 bank.length) idx1 ++
        [topicTag topic "", topicTag topic "tips",
          topicTag topic "strategy"] ++
        pySampleAux (generalBank.take 5) 2 idx2)
    have hl1 := pySampleAux_length (min 3 bank.length) (bank.take 5) idx1 h1
    have hl2 := pySampleAux_length 2 (generalBank.take 5) idx2 h2
    simp only [List.length_append, List.length_cons,
      List.length_nil] at hd ⊢
    omega
  · intro s hs
    have hmem := pyDedup_subset hs
    rcases List.mem_append.mp hmem with hmem1 | hmem1
    · rcases List.mem_append.mp hmem1 with hmem2 | hmem2
      · exact Or.inl (pySampleAux_subset _ _ idx1 s hmem2)
      · exact Or.inr (Or.inl hmem2)
    · exact Or.inr (Or.inr (pySampleAux_subset _ _ idx2 s hmem1))

theorem topicTag_head (topic suffix : String) :
    (topicTag topic suffix).data.head? = some '#' := rfl

/-- C4: for every supported industry key and every topic, the hashtag
generator succeeds with a list of at most 8 tags, each starting with the
hash character. -/
theorem c4_hashtags_shape (industry : String)
    (hmem : industry ∈ HASHTAGS.map Prod.fst) (topic : String)
    (idx1 idx2 : List Nat) :
    ∃ r, generate_hashtags industry topic idx1 idx2 = .ok r ∧
      r.length ≤ 8 ∧ ∀ s ∈ r, s.data.head? = some '#' := by
  have hbanks : ∀ p ∈ HASHTAGS, p.2.length = 10 ∧
      ∀ s ∈ p.2, s.data.head? = some '#' := by decide
  have hg : alookup HASHTAGS "general" =
      some ["#instagood", "#photooftheday", "#love", "#instadaily",
        "#follow", "#like", "#picoftheday", "#beautiful", "#happy",
        "#life"] := by rfl
  obtain ⟨r, hr, hlen, hmems⟩ :=
    generate_hashtags_cat_ok HASHTAGS industry topic idx1 idx2 hg (by decide)
  obtain ⟨bank, hbank⟩ := alookup_some_of_key_mem hmem
  have hbankmem : (industry, bank) ∈ HASHTAGS := alookup_mem hbank
  have hbankfacts := hbanks _ hbankmem
  refine ⟨r, hr, ?_, ?_⟩
  · rw [hbank] at hlen
    simp only [Option.getD_some] at hlen
    omega
  · intro s hs
    rcases hmems s hs with h1 | h1 | h1
    · rw [hbank] at h1
      simp only [Option.getD_some] at h1
      exact hbankfacts.2 s (List.mem_of_mem_take h1)
    · simp only [List.mem_cons, List.not_mem_nil, or_false] at h1
      rcases h1 with h1 | h1 | h1 <;>
      · rw [h1]; exact topicTag_head _ _
    · have hgen := hbanks _ (alookup_mem hg)
      exact hgen.2 s (List.mem_of_mem_take h1)

/-- Witness for C4 at a concrete supported industry, topic and draws. -/
theorem c4_witness :
    ("fitness" ∈ HASHTAGS.map Prod.fst) ∧
    ∃ r, generate_hashtags "fitness" "core workouts" [0] [1] = .ok r ∧
      r.length ≤ 8 ∧ ∀ s ∈ r, s.data.head? = some '#' :=
  ⟨by decide, c4_hashtags_shape "fitness" (by decide) "core workouts"
    [0] [1]⟩

/-- Success test for an Except value. -/
def isOkE {ε α : Type} : Except ε α → Bool
  | .ok _ => true
  | .error _ => false

/-- A replacement catalog whose `tiny` bank has a single entry, so drawing 3
tags without replacement from its first five entries is impossible. -/
def c7Catalog : List (String × List String) :=
  [("tiny", ["#a"]),
   ("general",
    ["#instagood", "#photooftheday", "#love", "#instadaily", "#follow"])]

/-- C7 counterexample: with a one-entry industry bank (fewer than 5 entries,
and too few to sample 3 without replacement from its first five entries) the
hashtag generator does not fail: it returns a success value, silently using
the smaller sample `min(3, len(bank))`. -/
theorem c7_counterexample :
    (alookupD c7Catalog "tiny" []).length < 3 ∧
    ((alookupD c7Catalog "tiny" []).take 5).length < 3 ∧
    (alookupD c7Catalog "tiny" []).length < 5 ∧
    isOkE (generate_hashtags_cat c7Catalog "tiny" "x" [0] [0, 1]) = true := by
  decide

/-- C7 amended: when the industry bank is too small for a 3-draw the
generator does not raise; it draws `min(3, len(bank))` tags instead, and (as
long as the general bank keeps at least two entries in its first five) the
call always returns a success value. -/
theorem c7_amended_no_failure (catalog : List (String × List String))
    (industry topic : String) (idx1 idx2 : List Nat)
    {generalBank : List String}
    (hg : alookup catalog "general" = some generalBank)
    (h2 : 2 ≤ (generalBank.take 5).length) :
    ∃ r, generate_hashtags_cat catalog industry topic idx1 idx2 = .ok r := by
  obtain ⟨r, hr, -, -⟩ :=
    generate_hashtags_cat_ok catalog industry topic idx1 idx2 hg h2
  exact ⟨r, hr⟩

/-- Witness for the amended C7 at the concrete tiny catalog. -/
theorem c7_amended_witness :
    (alookup c7Catalog "general" =
      some ["#instagood", "#photooftheday", "#love", "#instadaily",
        "#follow"]) ∧
    ∃ r, generate_hashtags_cat c7Catalog "tiny" "x" [0] [0, 1] = .ok r :=
  ⟨rfl, c7_amended_no_failure c7Catalog "tiny" "x" [0] [0, 1] rfl
    (by decide)⟩

/-- On the class catalog the hashtag generator always succeeds: every bank,
including the general fallback, has ten entries. -/
theorem generate_hashtags_ok (industry topic : String)
    (idx1 idx2 : List Nat) :
    ∃ r, generate_hashtags industry topic idx1 idx2 = .ok r := by
  obtain ⟨r, hr, -, -⟩ :=
    generate_hashtags_cat_ok HASHTAGS industry topic idx1 idx2 rfl
      (by decide)
  exact ⟨r, hr⟩

/-- The carousel generator succeeds whenever the brand exists (no other step
of the method can fail, and the state is returned unchanged). -/
theorem generate_carousel_ok (s : ForgeState)
    (brand_name topic template_type : String) (n : Nat) (ρ : CarouselRand)
    {brand : BrandProfile}
    (hb : alookup s.brands brand_name = some brand) :
    ∃ c, (generate_carousel s brand_name topic template_type n ρ).2 =
      .ok c := by
  unfold generate_carousel
  rw [hb]
  obtain ⟨r, hr⟩ :=
    generate_hashtags_ok brand.industry topic ρ.hashIdx1 ρ.hashIdx2
  dsimp only
  rw [hr]
  exact ⟨_, rfl⟩

theorem calendarLoop_ok (s : ForgeState) (brand_name : String)
    (brand : BrandProfile) (clock : Nat → String × String)
    (ρ : Nat → CalendarRand)
    (hb : alookup s.brands brand_name = some brand) :
    ∀ idxs : List Nat,
      ∃ recs, calendarLoop s brand_name brand clock ρ idxs = .ok recs ∧
        recs.length = idxs.length ∧
        ∀ j (hj : j < recs.length),
          (recs.get ⟨j, hj⟩).topic =
            brand.content_pillars.getD
              (idxs.getD j 0 % brand.content_pillars.length) "" := by
  intro idxs
  induction idxs with
  | nil =>
    refine ⟨[], rfl, rfl, ?_⟩
    intro j hj
    simp at hj
  | cons i rest ih =>
    obtain ⟨recs, hrec, hlen, htop⟩ := ih
    obtain ⟨c, hc⟩ := generate_carousel_ok s brand_name
      (brand.content_pillars.getD (i % brand.content_pillars.length) "")
      (calendarTemplatePool.getD
        ((ρ i).tmplIdx % calendarTemplatePool.length) "")
      7 (ρ i).car hb
    refine ⟨mkCalRec clock i
      (brand.content_pillars.getD (i % brand.content_pillars.length) "")
      c :: recs, ?_, ?_, ?_⟩
    · unfold calendarLoop
      dsimp only
      rw [hc, hrec]
    · simp [hlen]
    · intro j hj
      cases j with
      | zero => simp [mkCalRec]
      | succ j0 =>
        simp only [List.get_cons_succ, List.getD_cons_succ]
        exact htop j0 (by simpa using hj)

/-- C8: for every registered brand with a non-empty pillar list of length P
and every requested day count, the calendar has exactly `min(days, 2 * P)`
records, and the record at index j carries the topic
`content_pillars[j mod P]`. -/
theorem c8_calendar (s : ForgeState) (brand_name : String)
    {brand : BrandProfile}
    (hb : alookup s.brands brand_name = some brand)
    (hp : brand.content_pillars ≠ [])
    (days : Nat) (clock : Nat → String × String) (ρ : Nat → CalendarRand) :
    ∃ recs,
      (generate_content_calendar s brand_name days clock ρ).2 = .ok recs ∧
      recs.length = min days (2 * brand.content_pillars.length) ∧
      ∀ j (hj : j < recs.length),
        (recs.get ⟨j, hj⟩).topic =
          brand.content_pillars.get
            ⟨j % brand.content_pillars.length,
             Nat.mod_lt j (List.length_pos.mpr hp)⟩ := by
  obtain ⟨recs, hrec, hlen, htop⟩ := calendarLoop_ok s brand_name brand
    clock ρ hb
    (List.range (min days (brand.content_pillars.length * 2)))
  refine ⟨recs, ?_, ?_, ?_⟩
  · unfold generate_content_calendar
    rw [hb]
    exact hrec
  · rw [hlen, List.length_range, Nat.mul_comm]
  · intro j hj
    have hj2 : j < min days (brand.content_pillars.length * 2) := by
      rw [hlen, List.length_range] at hj
      exact hj
    have hrange : (List.range
        (min days (brand.content_pillars.length * 2))).getD j 0 = j := by
      rw [List.getD_eq_getElem?_getD, List.getElem?_range hj2]
      rfl
    have hr := htop j hj
    rw [hrange] at hr
    rw [hr]
    have hlt : j % brand.content_pillars.length <
        brand.content_pillars.length :=
      Nat.mod_lt j (List.length_pos.mpr hp)
    rw [List.getD_eq_getElem?_getD, List.getElem?_eq_getElem hlt]
    simp [List.get_eq_getElem]

/-- Concrete brand with three content pillars for the C8 witness. -/
def c8Brand : BrandProfile :=
  { name := "BrandX", industry := "ecommerce", voice := "friendly",
    target_audience := "entrepreneurs", color_scheme := [],
    content_pillars := ["a", "b", "c"], posting_frequency := 5 }

/-- Forge state holding the witness brand. -/
def c8State : ForgeState :=
  { brands := [("BrandX", c8Brand)], content_history := [] }

/-- Fixed clock for the C8 witness. -/
def c8Clock : Nat → String × String := fun _ => ("2026-10-12", "Monday")

/-- Fixed random draws for the C8 witness. -/
def c8Rand : Nat → CalendarRand := fun _ =>
  { tmplIdx := 0,
    car :=
      { hookIdx := 0, titleIdx := 0, numIdx := 0, introIdx := 0,
        valueIdx := 0, ctaIdx := 0, hashIdx1 := [0], hashIdx2 := [0] } }

/-- Witness for C8: a brand with 3 pillars and days = 10 yields exactly
min(10, 6) = 6 calendar records. -/
theorem c8_witness :
    (alookup c8State.brands "BrandX" = some c8Brand) ∧
    c8Brand.content_pillars ≠ [] ∧
    ∃ recs, (generate_content_calendar c8State "BrandX" 10 c8Clock
      c8Rand).2 = .ok recs ∧ recs.length = 6 := by
  obtain ⟨recs, h1, h2, h3⟩ :=
    c8_calendar c8State "BrandX" (by rfl) (by decide) 10 c8Clock c8Rand
  have hmin : min 10 (2 * c8Brand.content_pillars.length) = 6 := by decide
  exact ⟨rfl, by decide, recs, h1, by rw [h2, hmin]⟩

/-- Brace-freedom of one template segment (placeholders excluded: their
braces are consumed by formatting). -/
def segNoBraces : Seg → Bool
  | .lit s => decide (noBraces s)
  | .var _ => true

theorem segNoBraces_lit {s : String} (h : segNoBraces (Seg.lit s) = true) :
    noBraces s := of_decide_eq_true h

theorem getD_mod_mem {α : Type} {l : List α} (h : l ≠ []) (i : Nat) (d : α) :
    l.getD (i % l.length) d ∈ l := by
  have hlt : i % l.length < l.length := Nat.mod_lt _ (List.length_pos.mpr h)
  rw [List.getD_eq_getElem?_getD, List.getElem?_eq_getElem hlt]
  exact List.getElem_mem _

theorem hook_result_noBraces {t : Tmpl} {vars : List (String × String)}
    (hlit : ∀ seg ∈ t, segNoBraces seg = true)
    (hval : ∀ p ∈ vars, noBraces p.2) :
    noBraces (match pyFormatTmpl t vars with
      | some s => s
      | none => stripBraces (rawOfTmpl t)) := by
  cases hfmt : pyFormatTmpl t vars with
  | none => exact noBraces_stripBraces _
  | some s =>
    exact pyFormatTmpl_noBraces
      (fun s2 hs2 => segNoBraces_lit (hlit _ hs2)) hval hfmt

/-- C6 counterexample: the claim quantifies over every topic string, but a
topic that itself contains a brace character survives substitution verbatim,
so the generated hook contains a brace. -/
theorem c6_counterexample :
    lb ∈ (generate_hook "ecommerce" (String.mk ['x', lb, 'y']) 7).data := by
  decide

/-- C6 amended: for every industry key, every choice and every topic that
itself contains no brace characters, the generated hook contains no brace
characters (formatting consumes every placeholder; a missing placeholder
strips the braces instead of raising). -/
theorem c6_amended_hook_no_braces (industry topic : String) (choice : Nat)
    (ht : noBraces topic) :
    noBraces (generate_hook industry topic choice) := by
  have hvals : ∀ p ∈ hookVars topic, noBraces p.2 := by
    intro p hp
    simp only [hookVars] at hp
    fin_cases hp <;> dsimp only <;>
      first
        | exact ht
        | exact (by decide)
        | exact noBraces_append ht (by decide)
        | exact noBraces_append (by decide) ht
        | exact noBraces_append (noBraces_append (by decide) ht) (by decide)
  have hlits : ∀ ls ∈ HOOKS.map Prod.snd, ∀ t ∈ ls, ∀ seg ∈ t,
      segNoBraces seg = true := by decide
  have hne : ∀ ls ∈ HOOKS.map Prod.snd, ls ≠ [] := by decide
  have hmem : alookupD HOOKS industry (alookupD HOOKS "general" []) ∈
      HOOKS.map Prod.snd := by
    rcases alookupD_mem_or_default HOOKS industry
      (alookupD HOOKS "general" []) with h | h
    · exact h
    · rw [h]; decide
  unfold generate_hook
  exact hook_result_noBraces
    (fun seg hseg => hlits _ hmem _ (getD_mod_mem (hne _ hmem) choice [])
      seg hseg)
    hvals

/-- Witness for the amended C6 at a concrete brace-free topic. -/
theorem c6_amended_witness :
    noBraces (String.mk ['x', 'y']) ∧
    noBraces (generate_hook "saas" (String.mk ['x', 'y']) 0) :=
  ⟨by decide, c6_amended_hook_no_braces "saas" (String.mk ['x', 'y']) 0
    (by decide)⟩

theorem generate_carousel_fst (s : ForgeState) (b t tt : String) (n : Nat)
    (ρ : CarouselRand) : (generate_carousel s b t tt n ρ).1 = s := by
  unfold generate_carousel
  cases alookup s.brands b with
  | none => rfl
  | some brand =>
    dsimp only
    cases generate_hashtags brand.industry t ρ.hashIdx1 ρ.hashIdx2 with
    | error e => rfl
    | ok r => rfl

theorem generate_single_post_fst (s : ForgeState) (b t pt : String)
    (hk ct : Nat) (i1 i2 : List Nat) (sc : Nat) :
    (generate_single_post s b t pt hk ct i1 i2 sc).1 = s := by
  unfold generate_single_post
  cases alookup s.brands b with
  | none => rfl
  | some brand =>
    dsimp only
    cases generate_hashtags brand.industry t i1 i2 with
    | error e => rfl
    | ok r => rfl

theorem generate_content_calendar_fst (s : ForgeState) (b : String)
    (d : Nat) (cl : Nat → String × String) (ρ : Nat → CalendarRand) :
    (generate_content_calendar s b d cl ρ).1 = s := by
  unfold generate_content_calendar
  cases alookup s.brands b with
  | none => rfl
  | some brand => rfl

theorem applyOp_content_history (s : ForgeState) (op : ForgeOp) :
    (applyOp s op).content_history = s.content_history := by
  cases op with
  | createBrand n i v a p f pal => rfl
  | genCarousel b t tt n ρ =>
    show (generate_carousel s b t tt n ρ).1.content_history =
      s.content_history
    rw [generate_carousel_fst]
  | genSingle b t pt hk ct i1 i2 sc =>
    show (generate_single_post s b t pt hk ct i1 i2 sc).1.content_history =
      s.content_history
    rw [generate_single_post_fst]
  | genCalendar b d cl ρ =>
    show (generate_content_calendar s b d cl ρ).1.content_history =
      s.content_history
    rw [generate_content_calendar_fst]

theorem runOps_content_history (ops : List ForgeOp) :
    ∀ s : ForgeState, (runOps s ops).content_history = s.content_history := by
  induction ops with
  | nil => intro s; rfl
  | cons op rest ih =>
    intro s
    show (runOps (applyOp s op) rest).content_history = s.content_history
    rw [ih (applyOp s op), applyOp_content_history]

/-- C10: no generation operation mutates the forge state — carousel, single
post and calendar generation return the state unchanged (in success and in
error); only create_brand mutates, by inserting or replacing the entry under
the given brand name while leaving content_history alone; and across any
sequence of operations from the initial state, content_history stays
empty. -/
theorem c10_generation_is_pure :
    (∀ (s : ForgeState) (b t tt : String) (n : Nat) (ρ : CarouselRand),
      (generate_carousel s b t tt n ρ).1 = s) ∧
    (∀ (s : ForgeState) (b t pt : String) (hk ct : Nat) (i1 i2 : List Nat)
      (sc : Nat), (generate_single_post s b t pt hk ct i1 i2 sc).1 = s) ∧
    (∀ (s : ForgeState) (b : String) (d : Nat)
      (cl : Nat → String × String) (ρ : Nat → CalendarRand),
      (generate_content_calendar s b d cl ρ).1 = s) ∧
    (∀ (s : ForgeState) (n i v a : String) (p : List String) (f : Int)
      (pal : Nat),
      (create_brand s n i v a p f pal).1.brands =
        dictSet s.brands n (create_brand s n i v a p f pal).2 ∧
      (create_brand s n i v a p f pal).1.content_history =
        s.content_history) ∧
    (∀ ops : List ForgeOp, (runOps initForge ops).content_history = []) :=
  ⟨generate_carousel_fst, generate_single_post_fst,
   generate_content_calendar_fst,
   fun _ _ _ _ _ _ _ _ => ⟨rfl, rfl⟩,
   fun ops => runOps_content_history ops initForge⟩
